import Mathlib

/-!
# Verification of the code-execution engine backend

Shallow embedding of `src/backend/main.py`: the language registry
(`LANGUAGE_CONFIGS`), the per-phase container runner
(`CodeExecutor._run_container`), the session orchestrator
(`CodeExecutor.execute`) and the websocket endpoint (`execute_code`).

The external world (Docker) is modelled by an explicit behaviour record per
container phase: whether `containers.run` raises, which output chunks the log
stream yields, and how the phase terminates (a final exit code from
`container.wait`, a `docker.errors.APIError` caught inside `_run_container`,
or any other exception that propagates out of `_run_container`).  The frames
sent over the websocket are collected into a list.
-/

namespace CodeExecution

/-- One websocket frame `{"type": ..., "data": ...}` sent to the caller. -/
inductive Frame where
  | status (data : String)
  | output (data : String)
  | error (data : String)
deriving DecidableEq, Repr

def Frame.isOutput : Frame → Bool
  | .output _ => true
  | _ => false

def Frame.isError : Frame → Bool
  | .error _ => true
  | _ => false

def Frame.isStatus : Frame → Bool
  | .status _ => true
  | _ => false

/-- One entry of `CodeExecutor.LANGUAGE_CONFIGS`. -/
structure LanguageConfig where
  image : String
  file_ext : String
  compile_cmd : Option String
  runCmd : String
deriving DecidableEq, Repr

/-- The static registry `CodeExecutor.LANGUAGE_CONFIGS` from the source. -/
def LANGUAGE_CONFIGS : List (String × LanguageConfig) :=
  [("python", ⟨"python:3.11-slim", "py", none, "python {filename}"⟩),
   ("cpp", ⟨"gcc:latest", "cpp", some "g++ -o program {filename} -std=c++17", "./program"⟩),
   ("java", ⟨"eclipse-temurin:17-jre", "java", some "javac {filename}", "java {classname}"⟩)]

/-- Dictionary lookup `LANGUAGE_CONFIGS[language]` / the
`language not in self.LANGUAGE_CONFIGS` test. -/
def lookupConfig (language : String) : Option LanguageConfig :=
  LANGUAGE_CONFIGS.lookup language

/-- Strip `pat` from the front of `s`, returning the remainder on success. -/
def stripPrefixChars : List Char → List Char → Option (List Char)
  | [], s => some s
  | _ :: _, [] => none
  | p :: ps, c :: cs => if p = c then stripPrefixChars ps cs else none

/-- Fuel-indexed replace-all over character lists (structural recursion so the
kernel can evaluate it).  One character of fuel is spent per input character
consumed, so `fuel = input length` suffices for a non-empty pattern. -/
def replaceFuel (pat rep : List Char) : Nat → List Char → List Char
  | _, [] => []
  | 0, s => s
  | fuel + 1, c :: cs =>
    match stripPrefixChars pat (c :: cs) with
    | some rest => rep ++ replaceFuel pat rep fuel rest
    | none => c :: replaceFuel pat rep fuel cs

/-- Python `template.format(field=value)` restricted to a single named field,
as used by the source: substitute every occurrence of `"{" ++ field ++ "}"`. -/
def pyFormat (template field value : String) : String :=
  ⟨replaceFuel ("\x7b" ++ field ++ "\x7d").data value.data template.data.length template.data⟩

/-- The keyword arguments of the `docker_client.containers.run(...)` call in
`CodeExecutor._run_container` (source lines 137-150). -/
structure ContainerInvocation where
  image : String
  command : String
  volume_bind : String
  volume_mode : String
  working_dir : String
  network_mode : String
  mem_limit : String
  cpu_period : Nat
  cpu_quota : Nat
  detach : Bool
  remove : Bool
deriving DecidableEq, Repr

/-- The fixed-policy `containers.run` invocation built by `_run_container`:
`command=f"sh -c \x27{command}\x27"`, workspace bound read-write at
`/workspace`, no network, `256m` memory, 50% CPU, detached, auto-removed. -/
def mkContainerRun (image command : String) : ContainerInvocation :=
  { image := image
    command := "sh -c \x27" ++ command ++ "\x27"
    volume_bind := "/workspace"
    volume_mode := "rw"
    working_dir := "/workspace"
    network_mode := "none"
    mem_limit := "256m"
    cpu_period := 100000
    cpu_quota := 50000
    detach := true
    remove := true }

/-- How one container phase terminates after the log stream is consumed:
`exit code` — `container.wait` returns `code`;
`apiError msg` — a `docker.errors.APIError` is raised during streaming or
wait and caught by `_run_container`;
`raiseExc msg` — any other exception (e.g. the `container.wait(timeout=10)`
timeout) propagates out of `_run_container`. -/
inductive TermKind where
  | exit (code : Nat)
  | apiError (msg : String)
  | raiseExc (msg : String)
deriving DecidableEq, Repr

/-- The environment behaviour of one `_run_container` call:
`createFail` — `docker_client.containers.run` itself raises (before the
inner `try`), with the given message;
`chunks` — the decoded log lines streamed before termination;
`term` — how the phase terminates. -/
structure PhaseBehavior where
  createFail : Option String
  chunks : List String
  term : TermKind
deriving DecidableEq, Repr

/-- What one `_run_container` call produced: the frames it sent, the
exception (if any) that propagated out of it, the `containers.run`
invocations it attempted, and how many containers were actually created. -/
structure PhaseResult where
  frames : List Frame
  exc : Option String
  invocations : List ContainerInvocation
  started : Nat
deriving DecidableEq, Repr

/-- Shallow embedding of `CodeExecutor._run_container` (source lines
126-176): send `status_msg`, call `containers.run`, stream each log chunk as
an Output frame, wait for the exit code and report a nonzero one as
`Error("Process exited with code N")`; a caught `APIError` becomes
`Error("Docker error: ...")`; any other exception propagates. -/
def run_container (image command : String) (b : PhaseBehavior)
    (status_msg : String) : PhaseResult :=
  let inv := mkContainerRun image command
  match b.createFail with
  | some m => ⟨[Frame.status status_msg], some m, [inv], 0⟩
  | none =>
    let outs := b.chunks.map Frame.output
    match b.term with
    | .exit code =>
      if code ≠ 0 then
        ⟨Frame.status status_msg :: outs ++
          [Frame.error ("Process exited with code " ++ toString code)],
         none, [inv], 1⟩
      else
        ⟨Frame.status status_msg :: outs, none, [inv], 1⟩
    | .apiError m =>
      ⟨Frame.status status_msg :: outs ++ [Frame.error ("Docker error: " ++ m)],
       none, [inv], 1⟩
    | .raiseExc m =>
      ⟨Frame.status status_msg :: outs, some m, [inv], 1⟩

/-- The environment behaviour of one whole `CodeExecutor.execute` call:
whether `code_file.write_text` raises, the behaviour of the compile-phase and
run-phase containers, and whether the underlying directory removal in the
`finally` block fails. -/
structure ExecEnv where
  writeFail : Option String
  compile : PhaseBehavior
  run : PhaseBehavior
  rmFail : Bool
deriving DecidableEq, Repr

/-- `shutil.rmtree(work_dir, ignore_errors=...)`: returns the exception it
raises (if any) and whether the directory was actually removed. -/
def rmtree (ignore_errors removalFails : Bool) : Option String × Bool :=
  if removalFails then
    (if ignore_errors then none else some "OSError", false)
  else
    (none, true)

/-- `filename = f"main.{config[\x27file_ext\x27]}"` (source line 77). -/
def sessionFilename (config : LanguageConfig) : String :=
  "main." ++ config.file_ext

/-- The formatted run command (source lines 96-101): substitute the filename
and the classname (`"main"` for java, Python `None` rendered as `"None"`
otherwise) into the profile's run-command template. -/
def runCommand (config : LanguageConfig) (language : String) : String :=
  pyFormat (pyFormat config.runCmd "filename" (sessionFilename config))
    "classname" (if language = "java" then "main" else "None")

/-- The compile step of `execute` (source lines 87-94): run the compile
container only when the profile declares a compile command. -/
def compilePhase (config : LanguageConfig) (cb : PhaseBehavior) : PhaseResult :=
  match config.compile_cmd with
  | some cmd =>
    run_container config.image (pyFormat cmd "filename" (sessionFilename config))
      cb "Compiling..."
  | none => ⟨[], none, [], 0⟩

/-- What one `CodeExecutor.execute` call produced. -/
structure ExecResult where
  frames : List Frame
  workspaceCreated : Bool
  cleanupRan : Bool
  workspaceRemoved : Bool
  caught : Option String
  invocations : List ContainerInvocation
  containersStarted : Nat
deriving DecidableEq, Repr

/-- Shallow embedding of `CodeExecutor.execute` (source lines 60-124):
reject an unregistered language with a single Error frame; otherwise create
the workspace, write the code file, send `Status("Starting execution...")`,
run the optional compile phase and then the run phase, send
`Status("Execution complete")`, catch any exception as a generic Error
frame, and always remove the workspace in the `finally` block with
`ignore_errors=True`. -/
def execute (code language : String) (env : ExecEnv) : ExecResult :=
  match lookupConfig language with
  | none =>
    ⟨[Frame.error ("Unsupported language: " ++ language)],
     false, false, false, none, [], 0⟩
  | some config =>
    match env.writeFail with
    | some m =>
      let rm := rmtree true env.rmFail
      ⟨[Frame.error m], true, true, rm.2, some m, [], 0⟩
    | none =>
      let startFrames := [Frame.status "Starting execution..."]
      let cres := compilePhase config env.compile
      match cres.exc with
      | some m =>
        let rm := rmtree true env.rmFail
        ⟨startFrames ++ cres.frames ++ [Frame.error m], true, true, rm.2,
         some m, cres.invocations, cres.started⟩
      | none =>
        let rres :=
          run_container config.image (runCommand config language) env.run
            "Running..."
        match rres.exc with
        | some m =>
          let rm := rmtree true env.rmFail
          ⟨startFrames ++ cres.frames ++ rres.frames ++ [Frame.error m],
           true, true, rm.2, some m,
           cres.invocations ++ rres.invocations, cres.started + rres.started⟩
        | none =>
          let rm := rmtree true env.rmFail
          ⟨startFrames ++ cres.frames ++ rres.frames ++
            [Frame.status "Execution complete"],
           true, true, rm.2, none,
           cres.invocations ++ rres.invocations, cres.started + rres.started⟩

/-- The initiation message received on the websocket; either field may be
missing from the JSON object. -/
structure InitMsg where
  code : Option String
  language : Option String
deriving DecidableEq, Repr

/-- What the websocket endpoint produced: the session result and whether the
channel was closed. -/
structure EndpointResult where
  result : ExecResult
  closed : Bool
deriving DecidableEq, Repr

/-- Shallow embedding of the `/ws/execute` endpoint `execute_code` (source
lines 182-202): `data.get("code", "")`, `data.get("language", "python")`,
run the executor, and always close the channel in the `finally` block. -/
def execute_code (msg : InitMsg) (env : ExecEnv) : EndpointResult :=
  let code := msg.code.getD ""
  let language := msg.language.getD "python"
  ⟨execute code language env, true⟩

/-- Concatenation of a list of strings in order. -/
def concatAll (l : List String) : String :=
  l.foldr (· ++ ·) ""

/-- Concatenation, in emission order, of the data of all Output frames. -/
def outputConcat (l : List Frame) : String :=
  l.foldr (fun f acc =>
    match f with
    | Frame.output s => s ++ acc
    | _ => acc) ""

/-- Number of Error frames in a frame list. -/
def countErrors (l : List Frame) : Nat :=
  (l.filter Frame.isError).length

/-! ## Structural lemmas about the embedded operations -/

/-- The frames one `_run_container` call emits after its leading status
frame. -/
def phaseTail (b : PhaseBehavior) : List Frame :=
  match b.createFail with
  | some _ => []
  | none =>
    match b.term with
    | .exit code =>
      if code ≠ 0 then
        b.chunks.map Frame.output ++
          [Frame.error ("Process exited with code " ++ toString code)]
      else
        b.chunks.map Frame.output
    | .apiError m =>
      b.chunks.map Frame.output ++ [Frame.error ("Docker error: " ++ m)]
    | .raiseExc _ =>
      b.chunks.map Frame.output

theorem run_container_frames (i c : String) (b : PhaseBehavior) (sm : String) :
    (run_container i c b sm).frames = Frame.status sm :: phaseTail b := by
  obtain ⟨cf, ch, t⟩ := b
  cases cf with
  | some m => rfl
  | none =>
    cases t with
    | exit code => by_cases h : code = 0 <;> simp [run_container, phaseTail, h]
    | apiError m => rfl
    | raiseExc m => rfl

theorem run_container_invocations (i c : String) (b : PhaseBehavior)
    (sm : String) :
    (run_container i c b sm).invocations = [mkContainerRun i c] := by
  obtain ⟨cf, ch, t⟩ := b
  cases cf with
  | some m => rfl
  | none =>
    cases t with
    | exit code => by_cases h : code = 0 <;> simp [run_container, h]
    | apiError m => rfl
    | raiseExc m => rfl

theorem run_container_exit_exc (i c sm : String) (ch : List String) (N : Nat) :
    (run_container i c ⟨none, ch, .exit N⟩ sm).exc = none := by
  by_cases h : N = 0 <;> simp [run_container, h]

theorem run_container_apiError_exc (i c sm m : String) (ch : List String) :
    (run_container i c ⟨none, ch, .apiError m⟩ sm).exc = none := rfl

theorem phaseTail_no_status (s : String) (b : PhaseBehavior) :
    Frame.status s ∉ phaseTail b := by
  obtain ⟨cf, ch, t⟩ := b
  cases cf with
  | some m => simp [phaseTail]
  | none =>
    cases t with
    | exit code => by_cases h : code = 0 <;> simp [phaseTail, h]
    | apiError m => simp [phaseTail]
    | raiseExc m => simp [phaseTail]

/-- If an element occurs in a list but neither in the part before one of its
occurrences nor in the part after it, then any decomposition of the list at
that element has the same suffix. -/
theorem unique_split {α : Type} (r : α) :
    ∀ (A xs : List α) {B ys : List α},
      A ++ r :: B = xs ++ r :: ys → r ∉ A → r ∉ B → ys = B
  | [], [], _, _, h, _, _ => (List.cons.injEq .. ▸ h).2.symm
  | [], x :: xs, B, ys, h, _, hB => by
    obtain ⟨rfl, h2⟩ := List.cons.injEq .. ▸ h
    exact absurd (h2 ▸ List.mem_append_right xs (List.mem_cons_self r ys)) hB
  | a :: A, [], B, ys, h, hA, _ => by
    obtain ⟨rfl, _⟩ := List.cons.injEq .. ▸ h
    exact absurd (List.mem_cons_self a A) hA
  | a :: A, x :: xs, B, ys, h, hA, hB => by
    obtain ⟨rfl, h2⟩ := List.cons.injEq .. ▸ h
    exact unique_split r A xs h2 (fun hm => hA (List.mem_cons_of_mem a hm)) hB

theorem outputConcat_nil : outputConcat [] = "" := rfl

theorem outputConcat_cons (f : Frame) (l : List Frame) :
    outputConcat (f :: l) =
      (match f with | Frame.output s => s | _ => "") ++ outputConcat l := by
  cases f <;> simp [outputConcat]

theorem outputConcat_append (l₁ l₂ : List Frame) :
    outputConcat (l₁ ++ l₂) = outputConcat l₁ ++ outputConcat l₂ := by
  induction l₁ with
  | nil => simp [outputConcat]
  | cons f l ih =>
    rw [List.cons_append, outputConcat_cons, outputConcat_cons, ih,
      String.append_assoc]

theorem outputConcat_map_output (l : List String) :
    outputConcat (l.map Frame.output) = concatAll l := by
  induction l with
  | nil => rfl
  | cons s l ih => rw [List.map_cons, outputConcat_cons, ih]; rfl

theorem countErrors_append (l₁ l₂ : List Frame) :
    countErrors (l₁ ++ l₂) = countErrors l₁ + countErrors l₂ := by
  simp [countErrors, List.filter_append]

theorem countErrors_nil : countErrors [] = 0 := rfl

theorem countErrors_cons (f : Frame) (l : List Frame) :
    countErrors (f :: l) =
      (if f.isError = true then 1 else 0) + countErrors l := by
  cases f <;> simp [countErrors, Frame.isError, List.filter_cons,
    Nat.add_comm]

theorem countErrors_map_output (l : List String) :
    countErrors (l.map Frame.output) = 0 := by
  induction l with
  | nil => rfl
  | cons s l ih => simp [countErrors_cons, Frame.isError, ih]

/-! ## Path lemmas for `execute` -/

theorem execute_unsupported (code language : String) (env : ExecEnv)
    (hcfg : lookupConfig language = none) :
    execute code language env =
      ⟨[Frame.error ("Unsupported language: " ++ language)],
       false, false, false, none, [], 0⟩ := by
  simp [execute, hcfg]

theorem execute_writeFail (code language : String) (config : LanguageConfig)
    (env : ExecEnv) (m : String)
    (hcfg : lookupConfig language = some config)
    (hw : env.writeFail = some m) :
    execute code language env =
      ⟨[Frame.error m], true, true, (rmtree true env.rmFail).2, some m,
       [], 0⟩ := by
  simp [execute, hcfg, hw]

theorem execute_compileExc (code language : String) (config : LanguageConfig)
    (env : ExecEnv) (m : String)
    (hcfg : lookupConfig language = some config)
    (hw : env.writeFail = none)
    (hc : (compilePhase config env.compile).exc = some m) :
    execute code language env =
      ⟨Frame.status "Starting execution..." ::
        ((compilePhase config env.compile).frames ++ [Frame.error m]),
       true, true, (rmtree true env.rmFail).2, some m,
       (compilePhase config env.compile).invocations,
       (compilePhase config env.compile).started⟩ := by
  simp [execute, hcfg, hw, hc]

theorem execute_runExc (code language : String) (config : LanguageConfig)
    (env : ExecEnv) (m : String)
    (hcfg : lookupConfig language = some config)
    (hw : env.writeFail = none)
    (hc : (compilePhase config env.compile).exc = none)
    (hr : (run_container config.image (runCommand config language) env.run
            "Running...").exc = some m) :
    execute code language env =
      ⟨Frame.status "Starting execution..." ::
        ((compilePhase config env.compile).frames ++
         (run_container config.image (runCommand config language) env.run
            "Running...").frames ++ [Frame.error m]),
       true, true, (rmtree true env.rmFail).2, some m,
       (compilePhase config env.compile).invocations ++
         (run_container config.image (runCommand config language) env.run
            "Running...").invocations,
       (compilePhase config env.compile).started +
         (run_container config.image (runCommand config language) env.run
            "Running...").started⟩ := by
  simp [execute, hcfg, hw, hc, hr]

theorem execute_ok (code language : String) (config : LanguageConfig)
    (env : ExecEnv)
    (hcfg : lookupConfig language = some config)
    (hw : env.writeFail = none)
    (hc : (compilePhase config env.compile).exc = none)
    (hr : (run_container config.image (runCommand config language) env.run
            "Running...").exc = none) :
    execute code language env =
      ⟨Frame.status "Starting execution..." ::
        ((compilePhase config env.compile).frames ++
         (run_container config.image (runCommand config language) env.run
            "Running...").frames ++ [Frame.status "Execution complete"]),
       true, true, (rmtree true env.rmFail).2, none,
       (compilePhase config env.compile).invocations ++
         (run_container config.image (runCommand config language) env.run
            "Running...").invocations,
       (compilePhase config env.compile).started +
         (run_container config.image (runCommand config language) env.run
            "Running...").started⟩ := by
  simp [execute, hcfg, hw, hc, hr]

theorem compilePhase_invocations_mk (config : LanguageConfig)
    (cb : PhaseBehavior) :
    ∀ inv ∈ (compilePhase config cb).invocations,
      ∃ i c, inv = mkContainerRun i c := by
  intro inv hinv
  cases hcc : config.compile_cmd with
  | none => simp [compilePhase, hcc] at hinv
  | some cmd =>
    simp only [compilePhase, hcc, run_container_invocations,
      List.mem_singleton] at hinv
    exact ⟨_, _, hinv⟩

theorem execute_invocations_mk (code language : String) (env : ExecEnv) :
    ∀ inv ∈ (execute code language env).invocations,
      ∃ i c, inv = mkContainerRun i c := by
  intro inv hinv
  cases hcfg : lookupConfig language with
  | none =>
    rw [execute_unsupported code language env hcfg] at hinv
    simp at hinv
  | some config =>
    cases hw : env.writeFail with
    | some m =>
      rw [execute_writeFail code language config env m hcfg hw] at hinv
      simp at hinv
    | none =>
      cases hc : (compilePhase config env.compile).exc with
      | some m =>
        rw [execute_compileExc code language config env m hcfg hw hc] at hinv
        exact compilePhase_invocations_mk config env.compile inv hinv
      | none =>
        cases hr : (run_container config.image (runCommand config language)
            env.run "Running...").exc with
        | some m =>
          rw [execute_runExc code language config env m hcfg hw hc hr] at hinv
          rcases List.mem_append.mp hinv with h | h
          · exact compilePhase_invocations_mk config env.compile inv h
          · rw [run_container_invocations] at h
            exact ⟨_, _, List.mem_singleton.mp h⟩
        | none =>
          rw [execute_ok code language config env hcfg hw hc hr] at hinv
          rcases List.mem_append.mp hinv with h | h
          · exact compilePhase_invocations_mk config env.compile inv h
          · rw [run_container_invocations] at h
            exact ⟨_, _, List.mem_singleton.mp h⟩

theorem mem_of_split {α : Type} {l xs ys : List α} {r : α}
    (h : l = xs ++ r :: ys) : r ∈ l := by
  subst h
  exact List.mem_append_right xs (List.mem_cons_self r ys)

theorem compilePhase_status_mem (config : LanguageConfig) (cb : PhaseBehavior)
    (s : String) (h : Frame.status s ∈ (compilePhase config cb).frames) :
    s = "Compiling..." := by
  cases hcc : config.compile_cmd with
  | none => simp [compilePhase, hcc] at h
  | some cmd =>
    simp only [compilePhase, hcc, run_container_frames, List.mem_cons] at h
    rcases h with h | h
    · exact Frame.status.inj h
    · exact absurd h (phaseTail_no_status s cb)

theorem docker_error_ne_process_exit (m t : String) :
    "Docker error: " ++ m ≠ "Process exited with code " ++ t := by
  intro h
  have h2 := congrArg String.data h
  rw [String.data_append, String.data_append] at h2
  have h3 : List.head? ("Docker error: ".data ++ m.data) =
      List.head? ("Process exited with code ".data ++ t.data) :=
    congrArg List.head? h2
  have h4 : some 'D' = some 'P' := h3
  simp at h4

end CodeExecution

namespace CodeExecution

/-! ## Claims -/

/-- C2: a request whose language identifier is not in the registry yields
exactly one Error frame (reporting the unsupported language), no workspace,
no container invocation, no Status or Output frame, and the channel is
closed. -/
theorem C2_unsupported_language (msg : InitMsg) (env : ExecEnv)
    (h : lookupConfig (msg.language.getD "python") = none) :
    (execute_code msg env).result.frames =
      [Frame.error ("Unsupported language: " ++ msg.language.getD "python")] ∧
    (execute_code msg env).result.workspaceCreated = false ∧
    (execute_code msg env).result.invocations = [] ∧
    (execute_code msg env).result.containersStarted = 0 ∧
    (execute_code msg env).closed = true := by
  have he : (execute_code msg env).result =
      execute (msg.code.getD "") (msg.language.getD "python") env := rfl
  rw [he, execute_unsupported _ _ _ h]
  exact ⟨rfl, rfl, rfl, rfl, rfl⟩

/-- Witness for C2 at the concrete unregistered language `"ruby"`. -/
theorem C2_unsupported_language_witness :
    lookupConfig ((InitMsg.mk (some "puts 1") (some "ruby")).language.getD
      "python") = none ∧
    (execute_code ⟨some "puts 1", some "ruby"⟩
        ⟨none, ⟨none, [], .exit 0⟩, ⟨none, [], .exit 0⟩, false⟩).result.frames =
      [Frame.error ("Unsupported language: " ++
        (InitMsg.mk (some "puts 1") (some "ruby")).language.getD "python")] ∧
    (execute_code ⟨some "puts 1", some "ruby"⟩
        ⟨none, ⟨none, [], .exit 0⟩, ⟨none, [], .exit 0⟩, false⟩).closed = true :=
  have h : lookupConfig ((InitMsg.mk (some "puts 1")
      (some "ruby")).language.getD "python") = none := by decide
  have c := C2_unsupported_language ⟨some "puts 1", some "ruby"⟩
    ⟨none, ⟨none, [], .exit 0⟩, ⟨none, [], .exit 0⟩, false⟩ h
  ⟨h, c.1, c.2.2.2.2⟩

/-- C5: every container invocation of every session applies the same fixed
resource policy: no network, 256 MiB memory ceiling, CPU capped via
`cpu_period=100000, cpu_quota=50000`, the workspace bind-mounted read-write
at `/workspace` which is also the working directory, the command wrapped in
`sh -c \x27...\x27`, detached, and auto-removed on completion. -/
theorem C5_resource_policy (code language : String) (env : ExecEnv)
    (inv : ContainerInvocation)
    (h : inv ∈ (execute code language env).invocations) :
    inv.network_mode = "none" ∧ inv.mem_limit = "256m" ∧
    inv.cpu_period = 100000 ∧ inv.cpu_quota = 50000 ∧
    inv.volume_bind = "/workspace" ∧ inv.volume_mode = "rw" ∧
    inv.working_dir = "/workspace" ∧
    (∃ c, inv.command = "sh -c \x27" ++ c ++ "\x27") ∧
    inv.detach = true ∧ inv.remove = true := by
  obtain ⟨i, c, rfl⟩ := execute_invocations_mk code language env inv h
  exact ⟨rfl, rfl, rfl, rfl, rfl, rfl, rfl, ⟨c, rfl⟩, rfl, rfl⟩

/-- Witness for C5: the run-phase invocation of a concrete python session. -/
theorem C5_resource_policy_witness :
    (mkContainerRun "python:3.11-slim" "python main.py" ∈
      (execute "print(1)" "python"
        ⟨none, ⟨none, [], .exit 0⟩, ⟨none, [], .exit 0⟩, false⟩).invocations) ∧
    (mkContainerRun "python:3.11-slim" "python main.py").network_mode =
      "none" ∧
    (mkContainerRun "python:3.11-slim" "python main.py").mem_limit = "256m" ∧
    (mkContainerRun "python:3.11-slim" "python main.py").cpu_period =
      100000 ∧
    (mkContainerRun "python:3.11-slim" "python main.py").cpu_quota = 50000 ∧
    (mkContainerRun "python:3.11-slim" "python main.py").volume_bind =
      "/workspace" ∧
    (mkContainerRun "python:3.11-slim" "python main.py").volume_mode = "rw" ∧
    (mkContainerRun "python:3.11-slim" "python main.py").working_dir =
      "/workspace" ∧
    (∃ c, (mkContainerRun "python:3.11-slim" "python main.py").command =
      "sh -c \x27" ++ c ++ "\x27") ∧
    (mkContainerRun "python:3.11-slim" "python main.py").detach = true ∧
    (mkContainerRun "python:3.11-slim" "python main.py").remove = true :=
  have h : mkContainerRun "python:3.11-slim" "python main.py" ∈
      (execute "print(1)" "python"
        ⟨none, ⟨none, [], .exit 0⟩, ⟨none, [], .exit 0⟩,
          false⟩).invocations := by decide
  ⟨h, C5_resource_policy "print(1)" "python"
    ⟨none, ⟨none, [], .exit 0⟩, ⟨none, [], .exit 0⟩, false⟩
    (mkContainerRun "python:3.11-slim" "python main.py") h⟩

/-- C8 (counterexample): an infrastructure fault at container creation
(`containers.run` raising, e.g. an allocation failure) is outside the inner
`try` of `_run_container`, so it propagates to `execute`'s generic handler
and is emitted as the bare exception message.  With the concrete message
`"Process exited with code 1"` the resulting Error frame is byte-identical
to the Error frame a nonzero user-process exit produces: the two fault
classes can yield the same frame, refuting the claim as stated. -/
theorem C8_creation_fault_collision :
    (execute "print(1)" "python"
      ⟨none, ⟨none, [], .exit 0⟩,
        ⟨some "Process exited with code 1", [], .exit 0⟩, false⟩).frames =
      [Frame.status "Starting execution...", Frame.status "Running...",
       Frame.error "Process exited with code 1"] ∧
    Frame.error "Process exited with code 1" ∈
      (execute "print(1)" "python"
        ⟨none, ⟨none, [], .exit 0⟩, ⟨none, [], .exit 1⟩, false⟩).frames :=
  ⟨by decide, by decide⟩

/-- C8 (amended): only the infrastructure faults caught inside
`_run_container`'s `try` — a Docker `APIError` raised while streaming logs
or waiting for the exit status — yield an Error frame that can never
coincide with the Error frame produced by a nonzero exit code of the user
process: the former always starts with `"Docker error: "`, the latter with
`"Process exited with code "`.  Faults at container creation propagate to
the generic handler and carry no such distinguishing structure. -/
theorem C8_fault_kinds_distinguishable (img1 cmd1 sm1 img2 cmd2 sm2 : String)
    (m e1 e2 : String) (ch1 ch2 : List String) (N : Nat) (hN : N ≠ 0)
    (h1 : Frame.error e1 ∈
      (run_container img1 cmd1 ⟨none, ch1, .apiError m⟩ sm1).frames)
    (h2 : Frame.error e2 ∈
      (run_container img2 cmd2 ⟨none, ch2, .exit N⟩ sm2).frames) :
    e1 ≠ e2 := by
  rw [run_container_frames] at h1 h2
  simp [phaseTail] at h1
  simp [phaseTail, hN] at h2
  subst h1
  subst h2
  exact docker_error_ne_process_exit m (toString N)

/-- Witness for C8: a concrete APIError message against a concrete nonzero
exit code. -/
theorem C8_fault_kinds_distinguishable_witness :
    (1 : Nat) ≠ 0 ∧
    Frame.error "Docker error: boom" ∈
      (run_container "i" "c" ⟨none, [], .apiError "boom"⟩ "Running...").frames ∧
    Frame.error "Process exited with code 1" ∈
      (run_container "i" "c" ⟨none, [], .exit 1⟩ "Running...").frames ∧
    "Docker error: boom" ≠ "Process exited with code 1" :=
  have h1 : Frame.error "Docker error: boom" ∈
      (run_container "i" "c" ⟨none, [], .apiError "boom"⟩
        "Running...").frames := by decide
  have h2 : Frame.error "Process exited with code 1" ∈
      (run_container "i" "c" ⟨none, [], .exit 1⟩ "Running...").frames := by
    decide
  ⟨by decide, h1, h2,
    C8_fault_kinds_distinguishable "i" "c" "Running..." "i" "c" "Running..."
      "boom" "Docker error: boom" "Process exited with code 1" [] [] 1
      (by decide) h1 h2⟩

/-- C9: a missing `"code"` field defaults to `""` and a missing
`"language"` field defaults to `"python"`; the request is executed with
these defaults (and the channel closed) rather than rejected. -/
theorem C9_missing_fields_default (env : ExecEnv) (c l : String) :
    execute_code ⟨none, none⟩ env = ⟨execute "" "python" env, true⟩ ∧
    execute_code ⟨some c, none⟩ env = ⟨execute c "python" env, true⟩ ∧
    execute_code ⟨none, some l⟩ env = ⟨execute "" l env, true⟩ :=
  ⟨rfl, rfl, rfl⟩

/-- C10: the cleanup step never raises (`shutil.rmtree` is called with
`ignore_errors=True`), so teardown adds no Error frame of its own and the
emitted frames and captured fault are unchanged even when the underlying
removal fails and the workspace is not actually removed. -/
theorem C10_cleanup_never_raises (code language : String) (wf : Option String)
    (cb rb : PhaseBehavior) (b1 b2 : Bool) :
    (rmtree true b1).1 = none ∧
    (rmtree true true).2 = false ∧
    (execute code language ⟨wf, cb, rb, b1⟩).frames =
      (execute code language ⟨wf, cb, rb, b2⟩).frames ∧
    (execute code language ⟨wf, cb, rb, b1⟩).caught =
      (execute code language ⟨wf, cb, rb, b2⟩).caught := by
  refine ⟨by cases b1 <;> rfl, rfl, ?_, ?_⟩ <;>
  · cases hcfg : lookupConfig language with
    | none =>
      rw [execute_unsupported code language ⟨wf, cb, rb, b1⟩ hcfg,
        execute_unsupported code language ⟨wf, cb, rb, b2⟩ hcfg]
    | some config =>
      cases wf with
      | some m =>
        rw [execute_writeFail code language config ⟨some m, cb, rb, b1⟩ m hcfg
            rfl,
          execute_writeFail code language config ⟨some m, cb, rb, b2⟩ m hcfg
            rfl]
      | none =>
        cases hc : (compilePhase config cb).exc with
        | some m =>
          rw [execute_compileExc code language config ⟨none, cb, rb, b1⟩ m hcfg
              rfl hc,
            execute_compileExc code language config ⟨none, cb, rb, b2⟩ m hcfg
              rfl hc]
        | none =>
          cases hr : (run_container config.image (runCommand config language)
              rb "Running...").exc with
          | some m =>
            rw [execute_runExc code language config ⟨none, cb, rb, b1⟩ m hcfg
                rfl hc hr,
              execute_runExc code language config ⟨none, cb, rb, b2⟩ m hcfg
                rfl hc hr]
          | none =>
            rw [execute_ok code language config ⟨none, cb, rb, b1⟩ hcfg rfl hc
                hr,
              execute_ok code language config ⟨none, cb, rb, b2⟩ hcfg rfl hc
                hr]

/-- C1 (counterexample): with run exit code 1, the session emits the Error
frame `"Process exited with code 1"` AND the Status frame
`"Execution complete"` right after it — the two outcomes claimed to be
mutually exclusive both occur. -/
theorem C1_not_mutually_exclusive :
    Frame.error "Process exited with code 1" ∈
      (execute "print(1)" "python"
        ⟨none, ⟨none, [], .exit 0⟩, ⟨none, [], .exit 1⟩, false⟩).frames ∧
    Frame.status "Execution complete" ∈
      (execute "print(1)" "python"
        ⟨none, ⟨none, [], .exit 0⟩, ⟨none, [], .exit 1⟩, false⟩).frames ∧
    (execute "print(1)" "python"
        ⟨none, ⟨none, [], .exit 0⟩, ⟨none, [], .exit 1⟩, false⟩).frames =
      [Frame.status "Starting execution...", Frame.status "Running...",
       Frame.error "Process exited with code 1",
       Frame.status "Execution complete"] :=
  ⟨by decide, by decide, by decide⟩

/-- C1 (amended): when the run phase's container terminates with exit code
N, exit 0 appends exactly `Status("Execution complete")` with no run-phase
Error frame, and a nonzero N appends exactly one
`Error("Process exited with code N")` with no Output frame after it — but
`Status("Execution complete")` is emitted afterwards in both cases, so the
two outcomes are distinguished by the Error frame alone, not mutually
exclusive terminal frames. -/
theorem C1_run_exit_reporting (code language : String) (config : LanguageConfig)
    (env : ExecEnv) (chunks : List String) (N : Nat)
    (hcfg : lookupConfig language = some config)
    (hw : env.writeFail = none)
    (hc : (compilePhase config env.compile).exc = none)
    (hrun : env.run = ⟨none, chunks, .exit N⟩) :
    (execute code language env).frames =
      Frame.status "Starting execution..." ::
        ((compilePhase config env.compile).frames ++
         Frame.status "Running..." :: chunks.map Frame.output ++
         (if N = 0 then [Frame.status "Execution complete"]
          else [Frame.error ("Process exited with code " ++ toString N),
                Frame.status "Execution complete"])) := by
  have hr : (run_container config.image (runCommand config language) env.run
      "Running...").exc = none := by
    rw [hrun]; exact run_container_exit_exc _ _ _ _ _
  have hfr := congrArg ExecResult.frames
    (execute_ok code language config env hcfg hw hc hr)
  rw [hfr, run_container_frames, hrun]
  by_cases h : N = 0 <;> simp [phaseTail, h, List.append_assoc]

/-- Witness for C1, amended form, at a concrete python session whose run
container streams one chunk and exits 2. -/
theorem C1_run_exit_reporting_witness :
    lookupConfig "python" =
      some ⟨"python:3.11-slim", "py", none, "python {filename}"⟩ ∧
    (execute "" "python"
        ⟨none, ⟨none, [], .exit 0⟩, ⟨none, ["hi\n"], .exit 2⟩, false⟩).frames =
      Frame.status "Starting execution..." ::
        ((compilePhase ⟨"python:3.11-slim", "py", none, "python {filename}"⟩
            (⟨none, ⟨none, [], .exit 0⟩, ⟨none, ["hi\n"], .exit 2⟩,
              false⟩ : ExecEnv).compile).frames ++
         Frame.status "Running..." :: (["hi\n"].map Frame.output) ++
         (if (2 : Nat) = 0 then [Frame.status "Execution complete"]
          else [Frame.error ("Process exited with code " ++ toString (2 : Nat)),
                Frame.status "Execution complete"])) :=
  have h : lookupConfig "python" =
      some ⟨"python:3.11-slim", "py", none, "python {filename}"⟩ := by decide
  ⟨h, C1_run_exit_reporting "" "python"
    ⟨"python:3.11-slim", "py", none, "python {filename}"⟩
    ⟨none, ⟨none, [], .exit 0⟩, ⟨none, ["hi\n"], .exit 2⟩, false⟩
    ["hi\n"] 2 h rfl rfl rfl⟩

/-- C3: when the profile declares a compile command and the compile
container exits with a nonzero code M, an Error frame reporting M is
emitted and the run phase is still invoked afterwards (its
`Status("Running...")` frame follows the compile Error frame). -/
theorem C3_compile_failure_runs_anyway (code language : String)
    (config : LanguageConfig) (cmd : String) (env : ExecEnv)
    (cchunks : List String) (M : Nat)
    (hcfg : lookupConfig language = some config)
    (hw : env.writeFail = none)
    (hcc : config.compile_cmd = some cmd)
    (hcb : env.compile = ⟨none, cchunks, .exit M⟩)
    (hM : M ≠ 0) :
    ∃ rest, (execute code language env).frames =
      Frame.status "Starting execution..." :: Frame.status "Compiling..." ::
        (cchunks.map Frame.output ++
         Frame.error ("Process exited with code " ++ toString M) ::
         Frame.status "Running..." :: rest) := by
  have hcp : compilePhase config env.compile =
      run_container config.image
        (pyFormat cmd "filename" (sessionFilename config)) env.compile
        "Compiling..." := by
    simp [compilePhase, hcc]
  have hcexc : (compilePhase config env.compile).exc = none := by
    rw [hcp, hcb]; exact run_container_exit_exc _ _ _ _ _
  have hcframes : (compilePhase config env.compile).frames =
      Frame.status "Compiling..." ::
        (cchunks.map Frame.output ++
         [Frame.error ("Process exited with code " ++ toString M)]) := by
    rw [hcp, run_container_frames, hcb]
    simp [phaseTail, hM]
  cases hr : (run_container config.image (runCommand config language) env.run
      "Running...").exc with
  | some m =>
    refine ⟨phaseTail env.run ++ [Frame.error m], ?_⟩
    have hfr := congrArg ExecResult.frames
      (execute_runExc code language config env m hcfg hw hcexc hr)
    rw [hfr, hcframes, run_container_frames]
    simp [List.append_assoc]
  | none =>
    refine ⟨phaseTail env.run ++ [Frame.status "Execution complete"], ?_⟩
    have hfr := congrArg ExecResult.frames
      (execute_ok code language config env hcfg hw hcexc hr)
    rw [hfr, hcframes, run_container_frames]
    simp [List.append_assoc]

/-- Witness for C3 at a concrete cpp session whose compile container exits 1
and whose run container exits 127. -/
theorem C3_compile_failure_runs_anyway_witness :
    lookupConfig "cpp" = some ⟨"gcc:latest", "cpp",
      some "g++ -o program {filename} -std=c++17", "./program"⟩ ∧
    (1 : Nat) ≠ 0 ∧
    (∃ rest, (execute "int main()" "cpp"
        ⟨none, ⟨none, ["err\n"], .exit 1⟩, ⟨none, [], .exit 127⟩,
          false⟩).frames =
      Frame.status "Starting execution..." :: Frame.status "Compiling..." ::
        (["err\n"].map Frame.output ++
         Frame.error ("Process exited with code " ++ toString (1 : Nat)) ::
         Frame.status "Running..." :: rest)) :=
  have h : lookupConfig "cpp" = some ⟨"gcc:latest", "cpp",
      some "g++ -o program {filename} -std=c++17", "./program"⟩ := by decide
  ⟨h, by decide,
    C3_compile_failure_runs_anyway "int main()" "cpp"
      ⟨"gcc:latest", "cpp", some "g++ -o program {filename} -std=c++17",
        "./program"⟩
      "g++ -o program {filename} -std=c++17"
      ⟨none, ⟨none, ["err\n"], .exit 1⟩, ⟨none, [], .exit 127⟩, false⟩
      ["err\n"] 1 h rfl rfl rfl (by decide)⟩

/-- C4: once a workspace is allocated (the language is registered), the
cleanup step runs on every exit path; an exception raised by the write step,
the compile phase or the run phase is captured and the captured fault is
always emitted as a single generic Error frame, at the end of the frame
sequence, instead of crashing the server. -/
theorem C4_cleanup_and_fault_capture (code language : String)
    (config : LanguageConfig) (env : ExecEnv)
    (hcfg : lookupConfig language = some config) :
    (execute code language env).workspaceCreated = true ∧
    (execute code language env).cleanupRan = true ∧
    (∀ m, env.writeFail = some m →
      (execute code language env).caught = some m) ∧
    (∀ m, env.writeFail = none →
      (compilePhase config env.compile).exc = some m →
      (execute code language env).caught = some m) ∧
    (∀ m, env.writeFail = none →
      (compilePhase config env.compile).exc = none →
      (run_container config.image (runCommand config language) env.run
        "Running...").exc = some m →
      (execute code language env).caught = some m) ∧
    (∀ m, (execute code language env).caught = some m →
      ∃ pre, (execute code language env).frames = pre ++ [Frame.error m]) := by
  cases hw : env.writeFail with
  | some m0 =>
    rw [execute_writeFail code language config env m0 hcfg hw]
    refine ⟨rfl, rfl, ?_, ?_, ?_, ?_⟩
    · intro m hm
      exact hm
    · intro m hm; simp at hm
    · intro m hm; simp at hm
    · intro m hm
      have h2 : some m0 = some m := hm
      injection h2 with h3; subst h3
      exact ⟨[], rfl⟩
  | none =>
    cases hc : (compilePhase config env.compile).exc with
    | some m1 =>
      rw [execute_compileExc code language config env m1 hcfg hw hc]
      refine ⟨rfl, rfl, ?_, ?_, ?_, ?_⟩
      · intro m hm; simp at hm
      · intro m _ hm
        exact hm
      · intro m _ hcn; simp at hcn
      · intro m hm
        have h2 : some m1 = some m := hm
        injection h2 with h3; subst h3
        exact ⟨Frame.status "Starting execution..." ::
          (compilePhase config env.compile).frames, rfl⟩
    | none =>
      cases hr : (run_container config.image (runCommand config language)
          env.run "Running...").exc with
      | some m2 =>
        rw [execute_runExc code language config env m2 hcfg hw hc hr]
        refine ⟨rfl, rfl, ?_, ?_, ?_, ?_⟩
        · intro m hm; simp at hm
        · intro m _ hm; simp at hm
        · intro m _ _ hm
          exact hm
        · intro m hm
          have h2 : some m2 = some m := hm
          injection h2 with h3; subst h3
          exact ⟨Frame.status "Starting execution..." ::
            ((compilePhase config env.compile).frames ++
             (run_container config.image (runCommand config language) env.run
               "Running...").frames), rfl⟩
      | none =>
        rw [execute_ok code language config env hcfg hw hc hr]
        refine ⟨rfl, rfl, ?_, ?_, ?_, ?_⟩
        · intro m hm; simp at hm
        · intro m _ hm; simp at hm
        · intro m _ _ hm; simp at hm
        · intro m hm
          have h2 : (none : Option String) = some m := hm
          simp at h2

/-- Witness for C4 at a concrete python session whose write step raises
`"boom"`. -/
theorem C4_cleanup_and_fault_capture_witness :
    lookupConfig "python" =
      some ⟨"python:3.11-slim", "py", none, "python {filename}"⟩ ∧
    (execute "" "python"
      ⟨some "boom", ⟨none, [], .exit 0⟩, ⟨none, [], .exit 0⟩,
        true⟩).workspaceCreated = true ∧
    (execute "" "python"
      ⟨some "boom", ⟨none, [], .exit 0⟩, ⟨none, [], .exit 0⟩,
        true⟩).cleanupRan = true ∧
    (execute "" "python"
      ⟨some "boom", ⟨none, [], .exit 0⟩, ⟨none, [], .exit 0⟩,
        true⟩).caught = some "boom" :=
  have h : lookupConfig "python" =
      some ⟨"python:3.11-slim", "py", none, "python {filename}"⟩ := by decide
  have c := C4_cleanup_and_fault_capture "" "python"
    ⟨"python:3.11-slim", "py", none, "python {filename}"⟩
    ⟨some "boom", ⟨none, [], .exit 0⟩, ⟨none, [], .exit 0⟩, true⟩ h
  ⟨h, c.1, c.2.1, c.2.2.1 "boom" rfl⟩

/-- C6: a session whose run container streams chunks concatenating to the
program's stdout lines and exits 0 (with a fault-free, silent compile
phase) yields Output frames concatenating to exactly those lines, ends with
the completion Status frame, and contains no Error frame anywhere. -/
theorem C6_clean_stdout_roundtrip (code language : String)
    (config : LanguageConfig) (env : ExecEnv) (lines chunks : List String)
    (hcfg : lookupConfig language = some config)
    (hw : env.writeFail = none)
    (hcexc : (compilePhase config env.compile).exc = none)
    (hcerr : countErrors (compilePhase config env.compile).frames = 0)
    (hcout : outputConcat (compilePhase config env.compile).frames = "")
    (hrun : env.run = ⟨none, chunks, .exit 0⟩)
    (hchunks : concatAll chunks = concatAll lines) :
    outputConcat (execute code language env).frames = concatAll lines ∧
    (execute code language env).frames.getLast? =
      some (Frame.status "Execution complete") ∧
    countErrors (execute code language env).frames = 0 := by
  have hr : (run_container config.image (runCommand config language) env.run
      "Running...").exc = none := by
    rw [hrun]; exact run_container_exit_exc _ _ _ _ _
  have hrf : (run_container config.image (runCommand config language) env.run
      "Running...").frames =
      Frame.status "Running..." :: chunks.map Frame.output := by
    rw [run_container_frames, hrun]; simp [phaseTail]
  have hfr := congrArg ExecResult.frames
    (execute_ok code language config env hcfg hw hcexc hr)
  rw [hfr, hrf]
  refine ⟨?_, ?_, ?_⟩
  · simp [outputConcat_cons, outputConcat_append, outputConcat_map_output,
      outputConcat_nil, hcout, hchunks]
  · show ((Frame.status "Starting execution..." ::
      ((compilePhase config env.compile).frames ++
        (Frame.status "Running..." :: chunks.map Frame.output))) ++
      [Frame.status "Execution complete"]).getLast? = _
    exact List.getLast?_concat _
  · simp [countErrors_cons, countErrors_append, countErrors_nil,
      countErrors_map_output, Frame.isError, hcerr]

/-- Witness for C6 at a concrete python session streaming two chunks that
split the lines `a\n`, `b\n` across a frame boundary. -/
theorem C6_clean_stdout_roundtrip_witness :
    lookupConfig "python" =
      some ⟨"python:3.11-slim", "py", none, "python {filename}"⟩ ∧
    concatAll ["a\nb", "\n"] = concatAll ["a\n", "b\n"] ∧
    outputConcat (execute "print()" "python"
        ⟨none, ⟨none, [], .exit 0⟩, ⟨none, ["a\nb", "\n"], .exit 0⟩,
          false⟩).frames = concatAll ["a\n", "b\n"] ∧
    (execute "print()" "python"
        ⟨none, ⟨none, [], .exit 0⟩, ⟨none, ["a\nb", "\n"], .exit 0⟩,
          false⟩).frames.getLast? =
      some (Frame.status "Execution complete") ∧
    countErrors (execute "print()" "python"
        ⟨none, ⟨none, [], .exit 0⟩, ⟨none, ["a\nb", "\n"], .exit 0⟩,
          false⟩).frames = 0 :=
  have h : lookupConfig "python" =
      some ⟨"python:3.11-slim", "py", none, "python {filename}"⟩ := by decide
  have c := C6_clean_stdout_roundtrip "print()" "python"
    ⟨"python:3.11-slim", "py", none, "python {filename}"⟩
    ⟨none, ⟨none, [], .exit 0⟩, ⟨none, ["a\nb", "\n"], .exit 0⟩, false⟩
    ["a\n", "b\n"] ["a\nb", "\n"] h rfl rfl (by decide) (by decide) rfl
    (by decide)
  ⟨h, by decide, c.1, c.2.1, c.2.2⟩

/-- C7: every emitted sequence follows the session state machine: a captured
fault's terminal Error frame is the final frame (so nothing — in particular
no Output — follows it), nothing follows the terminal
`Status("Execution complete")` frame, and no `Status("Compiling...")` frame
ever appears after `Status("Running...")` has been emitted. -/
theorem C7_valid_event_sequencing (code language : String) (env : ExecEnv) :
    (∀ m, (execute code language env).caught = some m →
      (execute code language env).frames.getLast? = some (Frame.error m)) ∧
    (∀ xs ys, (execute code language env).frames =
      xs ++ Frame.status "Execution complete" :: ys → ys = []) ∧
    (∀ xs ys, (execute code language env).frames =
      xs ++ Frame.status "Running..." :: ys →
      Frame.status "Compiling..." ∉ ys) := by
  cases hcfg : lookupConfig language with
  | none =>
    rw [execute_unsupported code language env hcfg]
    refine ⟨?_, ?_, ?_⟩
    · intro m hm; simp at hm
    · intro xs ys h
      have hmem := mem_of_split h
      simp at hmem
    · intro xs ys h
      have hmem := mem_of_split h
      simp at hmem
  | some config =>
    cases hw : env.writeFail with
    | some m0 =>
      rw [execute_writeFail code language config env m0 hcfg hw]
      refine ⟨?_, ?_, ?_⟩
      · intro m hm
        have h2 : some m0 = some m := hm
        injection h2 with h3; subst h3
        exact List.getLast?_concat []
      · intro xs ys h
        have hmem := mem_of_split h
        simp at hmem
      · intro xs ys h
        have hmem := mem_of_split h
        simp at hmem
    | none =>
      cases hc : (compilePhase config env.compile).exc with
      | some m1 =>
        rw [execute_compileExc code language config env m1 hcfg hw hc]
        refine ⟨?_, ?_, ?_⟩
        · intro m hm
          have h2 : some m1 = some m := hm
          injection h2 with h3; subst h3
          show ((Frame.status "Starting execution..." ::
            (compilePhase config env.compile).frames) ++
            [Frame.error m1]).getLast? = some (Frame.error m1)
          exact List.getLast?_concat _
        · intro xs ys h
          have hmem := mem_of_split h
          rcases List.mem_cons.mp hmem with h1 | h1
          · exact absurd (Frame.status.inj h1) (by decide)
          rcases List.mem_append.mp h1 with h2 | h2
          · exact absurd (compilePhase_status_mem config env.compile _ h2)
              (by decide)
          · simp at h2
        · intro xs ys h
          have hmem := mem_of_split h
          rcases List.mem_cons.mp hmem with h1 | h1
          · exact absurd (Frame.status.inj h1) (by decide)
          rcases List.mem_append.mp h1 with h2 | h2
          · exact absurd (compilePhase_status_mem config env.compile _ h2)
              (by decide)
          · simp at h2
      | none =>
        cases hr : (run_container config.image (runCommand config language)
            env.run "Running...").exc with
        | some m2 =>
          rw [execute_runExc code language config env m2 hcfg hw hc hr,
            run_container_frames]
          refine ⟨?_, ?_, ?_⟩
          · intro m hm
            have h2 : some m2 = some m := hm
            injection h2 with h3; subst h3
            show ((Frame.status "Starting execution..." ::
              ((compilePhase config env.compile).frames ++
                Frame.status "Running..." :: phaseTail env.run)) ++
              [Frame.error m2]).getLast? = some (Frame.error m2)
            exact List.getLast?_concat _
          · intro xs ys h
            have hmem := mem_of_split h
            rcases List.mem_cons.mp hmem with h1 | h1
            · exact absurd (Frame.status.inj h1) (by decide)
            rcases List.mem_append.mp h1 with h2 | h2
            rcases List.mem_append.mp h2 with h3 | h3
            · exact absurd (compilePhase_status_mem config env.compile _ h3)
                (by decide)
            rcases List.mem_cons.mp h3 with h4 | h4
            · exact absurd (Frame.status.inj h4) (by decide)
            · exact absurd h4 (phaseTail_no_status _ _)
            · simp at h2
          · intro xs ys h
            have key : (Frame.status "Starting execution..." ::
                (compilePhase config env.compile).frames) ++
                Frame.status "Running..." ::
                  (phaseTail env.run ++ [Frame.error m2]) =
                xs ++ Frame.status "Running..." :: ys := by
              rw [← h]; simp [List.append_assoc]
            have hA : Frame.status "Running..." ∉
                Frame.status "Starting execution..." ::
                  (compilePhase config env.compile).frames := by
              intro hmem
              rcases List.mem_cons.mp hmem with h1 | h1
              · exact absurd (Frame.status.inj h1) (by decide)
              · exact absurd (compilePhase_status_mem config env.compile _ h1)
                  (by decide)
            have hB : Frame.status "Running..." ∉
                phaseTail env.run ++ [Frame.error m2] := by
              intro hmem
              rcases List.mem_append.mp hmem with h1 | h1
              · exact absurd h1 (phaseTail_no_status _ _)
              · simp at h1
            have hys := unique_split (Frame.status "Running...") _ xs key hA hB
            subst hys
            intro hmem
            rcases List.mem_append.mp hmem with h1 | h1
            · exact absurd h1 (phaseTail_no_status _ _)
            · simp at h1
        | none =>
          rw [execute_ok code language config env hcfg hw hc hr,
            run_container_frames]
          refine ⟨?_, ?_, ?_⟩
          · intro m hm
            have h2 : (none : Option String) = some m := hm
            simp at h2
          · intro xs ys h
            have key : (Frame.status "Starting execution..." ::
                ((compilePhase config env.compile).frames ++
                  Frame.status "Running..." :: phaseTail env.run)) ++
                Frame.status "Execution complete" :: ([] : List Frame) =
                xs ++ Frame.status "Execution complete" :: ys := by
              rw [← h]; simp [List.append_assoc]
            have hA : Frame.status "Execution complete" ∉
                Frame.status "Starting execution..." ::
                  ((compilePhase config env.compile).frames ++
                    Frame.status "Running..." :: phaseTail env.run) := by
              intro hmem
              rcases List.mem_cons.mp hmem with h1 | h1
              · exact absurd (Frame.status.inj h1) (by decide)
              rcases List.mem_append.mp h1 with h2 | h2
              · exact absurd (compilePhase_status_mem config env.compile _ h2)
                  (by decide)
              rcases List.mem_cons.mp h2 with h3 | h3
              · exact absurd (Frame.status.inj h3) (by decide)
              · exact absurd h3 (phaseTail_no_status _ _)
            exact unique_split (Frame.status "Execution complete") _ xs key hA
              (by simp)
          · intro xs ys h
            have key : (Frame.status "Starting execution..." ::
                (compilePhase config env.compile).frames) ++
                Frame.status "Running..." ::
                  (phaseTail env.run ++ [Frame.status "Execution complete"]) =
                xs ++ Frame.status "Running..." :: ys := by
              rw [← h]; simp [List.append_assoc]
            have hA : Frame.status "Running..." ∉
                Frame.status "Starting execution..." ::
                  (compilePhase config env.compile).frames := by
              intro hmem
              rcases List.mem_cons.mp hmem with h1 | h1
              · exact absurd (Frame.status.inj h1) (by decide)
              · exact absurd (compilePhase_status_mem config env.compile _ h1)
                  (by decide)
            have hB : Frame.status "Running..." ∉
                phaseTail env.run ++ [Frame.status "Execution complete"] := by
              intro hmem
              rcases List.mem_append.mp hmem with h1 | h1
              · exact absurd h1 (phaseTail_no_status _ _)
              · rw [List.mem_singleton] at h1
                exact absurd (Frame.status.inj h1) (by decide)
            have hys := unique_split (Frame.status "Running...") _ xs key hA hB
            subst hys
            intro hmem
            rcases List.mem_append.mp hmem with h1 | h1
            · exact absurd h1 (phaseTail_no_status _ _)
            · rw [List.mem_singleton] at h1
              exact absurd (Frame.status.inj h1) (by decide)

/-- Witness for C7: the fault-capture conjunct at a concrete python session
whose wait-for-exit step raises `"timeout"`. -/
theorem C7_valid_event_sequencing_witness :
    (execute "" "python"
      ⟨none, ⟨none, [], .exit 0⟩, ⟨none, ["x"], .raiseExc "timeout"⟩,
        false⟩).caught = some "timeout" ∧
    (execute "" "python"
      ⟨none, ⟨none, [], .exit 0⟩, ⟨none, ["x"], .raiseExc "timeout"⟩,
        false⟩).frames.getLast? = some (Frame.error "timeout") :=
  have h : (execute "" "python"
      ⟨none, ⟨none, [], .exit 0⟩, ⟨none, ["x"], .raiseExc "timeout"⟩,
        false⟩).caught = some "timeout" := by decide
  ⟨h, (C7_valid_event_sequencing "" "python"
    ⟨none, ⟨none, [], .exit 0⟩, ⟨none, ["x"], .raiseExc "timeout"⟩,
      false⟩).1 "timeout" h⟩

end CodeExecution
